import Mathlib

/-
  Shallow embedding of `src/App.tsx` (opendaq-demo): a live scrolling sine-wave
  chart with a hand-drawn canvas time-axis overlay and a small control panel.

  Modelling conventions:
  * JavaScript numbers holding exact quantities (epoch milliseconds, pixel
    widths, loop counters, offsets stepped by 0.02 = 1/50) are embedded as
    `ℤ` / `ℚ` with exact arithmetic; the real-valued waveform
    `amplitude * Math.sin(...)` is embedded over `ℝ` with `Real.sin`.
  * Canvas drawing calls are embedded as pure descriptions of what is drawn
    (lists of x-positions, tick records, badge strings) rather than pixels.
  * `Date`o clock values are integer epoch milliseconds; the `HH:MM:SS.CC`
    label formatting follows the ECMAScript time-component formulas
    (floor division / floor modulus) with a UTC (zero-offset) locale.
-/

namespace OpenDaq

/-- Configuration state of the `App` component (the six `useState` cells:
`timeWindow`, `amplitude`, `showXSubScale`, `showYSubScale`, `xScaleDensity`,
`yScaleDensity`).  The committed densities are always clamped into `[0,6]` by
the handlers, so they are carried as `ℕ`. -/
structure Config where
  timeWindow : ℤ
  amplitude : ℚ
  showXSubScale : Bool
  showYSubScale : Bool
  xScaleDensity : ℕ
  yScaleDensity : ℕ
  deriving DecidableEq, Repr

/-- A generated sample: `[timestamp, clampedY]` pushed into `newData` in
`updateFrame` (App.tsx lines 244-252). -/
structure Sample where
  timestamp : ℚ
  value : ℝ

/-- elapsedTime = (currentTime - startTime.current) / 1000  (App.tsx line 242). -/
def elapsedTime (now st : ℤ) : ℚ := ((now - st : ℤ) : ℚ) / 1000

/-- Number of iterations of the loop
`for (let t = -timeWindow/1000; t <= 0; t += 0.02)` (App.tsx line 245), in
exact arithmetic: the body runs for `t = -timeWindow/1000 + k * (1/50)` for
each natural `k` with `t ≤ 0`. -/
def stepCount (tw : ℤ) : ℕ :=
  if tw < 0 then 0 else (⌊(tw : ℚ) / 20⌋).toNat + 1

/-- The ordered list of loop offsets `t` visited by the sampling loop
(App.tsx line 245): `t` starts at `-timeWindow/1000` and steps by `0.02`
while `t ≤ 0`. -/
def offsets (tw : ℤ) : List ℚ :=
  (List.range (stepCount tw)).map (fun (k : ℕ) => -(tw : ℚ) / 1000 + (k : ℚ) * (1 / 50))

/-- The offsets that actually emit a sample: the guard
`if (t >= -elapsedTime)` (App.tsx line 247). -/
def emittedOffsets (now st tw : ℤ) : List ℚ :=
  (offsets tw).filter (fun t => decide (-(elapsedTime now st) ≤ t))

/-- The clamped sample value
`Math.max(Y_AXIS_MIN, Math.min(Y_AXIS_MAX, amplitude * Math.sin(2 * Math.PI * (t + phase) / 2)))`
with `Y_AXIS_MIN = -10`, `Y_AXIS_MAX = 10` (App.tsx lines 249-250). -/
noncomputable def sampleValue (amp t phase : ℝ) : ℝ :=
  max (-10) (min 10 (amp * Real.sin (2 * Real.pi * (t + phase) / 2)))

/-- The unclamped value `amplitude * Math.sin(2 * Math.PI * (t + phase) / 2)`
(App.tsx line 249), before the clamp of line 250. -/
noncomputable def sampleValueUnclamped (amp t phase : ℝ) : ℝ :=
  amp * Real.sin (2 * Real.pi * (t + phase) / 2)

/-- The per-frame signal generation of `updateFrame` (App.tsx lines 240-253):
for each emitted offset `t`, push `[currentTime + t * 1000, clampedY]` where
the phase is the elapsed time `(currentTime - startTime.current) / 1000`. -/
noncomputable def updateFrameSamples (now st tw : ℤ) (amp : ℝ) : List Sample :=
  (emittedOffsets now st tw).map (fun (t : ℚ) =>
    ⟨(now : ℚ) + t * 1000, sampleValue amp (t : ℝ) ((elapsedTime now st : ℚ) : ℝ)⟩)

/-- The same generation with the clamp of App.tsx line 250 removed. -/
noncomputable def updateFrameSamplesUnclamped (now st tw : ℤ) (amp : ℝ) : List Sample :=
  (emittedOffsets now st tw).map (fun (t : ℚ) =>
    ⟨(now : ℚ) + t * 1000, sampleValueUnclamped amp (t : ℝ) ((elapsedTime now st : ℚ) : ℝ)⟩)

/-- JavaScript's remainder operator `a % b` for integers: it takes the sign
of the dividend (used for `currentTime % 2000`, App.tsx line 49). -/
def jsMod (a b : ℤ) : ℤ :=
  if a < 0 then -(Int.emod (-a) b) else Int.emod a b

/-- JavaScript `ToIntegerOrInfinity` truncation (toward zero) applied by the
`Date` constructor to a possibly fractional millisecond value. -/
def jsTrunc (q : ℚ) : ℤ := Int.tdiv q.num q.den

/-- Two-digit zero padding, as `toString().padStart(2, "0")` for values
below 100. -/
def twoDigits (n : ℕ) : String :=
  if n < 10 then "0" ++ toString n else toString n

/-- The `HH:MM:SS.CC` formatting used for every label in `drawTimeAxis`
(App.tsx lines 91-94, 111-114, 120-123): hours, minutes, seconds from the
ECMAScript time-component formulas (floor division on epoch milliseconds,
zero-offset locale), and the first two digits of the zero-padded millisecond
field, i.e. centiseconds. -/
def fmtEpoch (t : ℤ) : String :=
  twoDigits ((Int.emod (Int.ediv t 3600000) 24).toNat) ++ ":" ++
  twoDigits ((Int.emod (Int.ediv t 60000) 60).toNat) ++ ":" ++
  twoDigits ((Int.emod (Int.ediv t 1000) 60).toNat) ++ "." ++
  twoDigits ((Int.ediv (Int.emod t 1000) 10).toNat)

/-- The epoch time of the label under major tick `i`:
`currentTime - (timeWindow/1000 - i * (timeWindow/5000)) * 1000`
(App.tsx line 90). -/
def labelEpoch (now tw : ℤ) (i : ℕ) : ℚ :=
  (now : ℚ) - ((tw : ℚ) / 1000 - (i : ℚ) * ((tw : ℚ) / 5000)) * 1000

/-- A drawn major tick: its x-position, the epoch time its label was computed
from, and the rendered label string. -/
structure MajorTick where
  x : ℚ
  epoch : ℚ
  label : String
  deriving DecidableEq

/-- The seven major ticks of App.tsx lines 80-97: for `i = 0..6`,
`x = i * (width / 5) - offset`; the tick and its label are drawn exactly when
`0 ≤ x ∧ x ≤ width`. -/
def majorTicks (now tw : ℤ) (W offset : ℚ) : List MajorTick :=
  (List.range 7).filterMap (fun (i : ℕ) =>
    let x := (i : ℚ) * (W / 5) - offset
    if 0 ≤ x ∧ x ≤ W then
      some ⟨x, labelEpoch now tw i, fmtEpoch (jsTrunc (labelEpoch now tw i))⟩
    else none)

/-- The candidate sub-tick base positions visited by the loop
`for (let i = 0; i < width; i += width / xScaleDensity)` (App.tsx line 64),
in exact arithmetic: for `d > 0` the body runs at `i = k * (width / d)` for
`k = 0, ..., d - 1`; for `d = 0` the step `width / 0` is `+Infinity` in
JavaScript, so the body runs exactly once (at `i = 0`) and the incremented
counter `Infinity` ends the loop; if `width ≤ 0` the body never runs. -/
def subTickCandidates (W : ℚ) (d : ℕ) : List ℚ :=
  if W ≤ 0 then []
  else if d = 0 then [0]
  else (List.range d).map (fun (k : ℕ) => (k : ℚ) * (W / d))

/-- The sub-ticks actually drawn (App.tsx lines 64-69): each candidate is
shifted left by `offset` and drawn only when `0 ≤ x ∧ x ≤ width`. -/
def drawnSubTicks (W : ℚ) (d : ℕ) (offset : ℚ) : List ℚ :=
  (subTickCandidates W d).filterMap (fun (i : ℚ) =>
    let x := i - offset
    if 0 ≤ x ∧ x ≤ W then some x else none)

/-- What one call of `drawTimeAxis` (App.tsx lines 46-130) draws. -/
structure OverlayOutput where
  offset : ℚ
  subTicks : List ℚ
  ticks : List MajorTick
  startBadgeTime : ℤ
  endBadgeTime : ℤ
  startBadge : String
  endBadge : String
  deriving DecidableEq

/-- `drawTimeAxis(ctx, currentTime, width, height)` (App.tsx lines 46-130):
computes `offset = (currentTime % 2000) / 2000 * (width / 5)`, draws the
sub-ticks when `showXSubScale` is on, the seven clipped major ticks with
their interpolated labels, and the two fixed badges
`"[" + fmt(currentTime - timeWindow)` (left) and `fmt(currentTime) + "]"`
(right).  The height argument only sizes the cleared rectangle. -/
def drawTimeAxis (cfg : Config) (currentTime : ℤ) (W H : ℚ) : OverlayOutput :=
  let offset := ((jsMod currentTime 2000 : ℤ) : ℚ) / 2000 * (W / 5)
  { offset := offset
    subTicks := if cfg.showXSubScale then drawnSubTicks W cfg.xScaleDensity offset else []
    ticks := majorTicks currentTime cfg.timeWindow W offset
    startBadgeTime := currentTime - cfg.timeWindow
    endBadgeTime := currentTime
    startBadge := "[" ++ fmtEpoch (currentTime - cfg.timeWindow)
    endBadge := fmtEpoch currentTime ++ "]" }

/-- Everything one `updateFrame` callback (App.tsx lines 240-279) produces
from the single clock read `currentTime = Date.now()` of line 241: the fresh
sample buffer, the chart's horizontal range update
`{ min: currentTime - timeWindow, max: currentTime }`, the fixed vertical
range, and the overlay redraw `drawTimeAxis(ctx, currentTime, ...)`. -/
structure FrameOutput where
  samples : List Sample
  xMin : ℤ
  xMax : ℤ
  yMin : ℤ
  yMax : ℤ
  overlay : OverlayOutput

/-- The per-frame update (App.tsx lines 240-279) as a pure function of the
single clock value `now` read at the top of the callback. -/
noncomputable def updateFrame (cfg : Config) (st now : ℤ) (W H : ℚ) : FrameOutput :=
  { samples := updateFrameSamples now st cfg.timeWindow (cfg.amplitude : ℝ)
    xMin := now - cfg.timeWindow
    xMax := now
    yMin := -10
    yMax := 10
    overlay := drawTimeAxis cfg now W H }

/-- The component's long-lived mutable cells relevant to the clock:
`startTime = useRef(Date.now())` (App.tsx line 40) plus the current
configuration, and a counter of pipeline (re)initializations. -/
structure AppState where
  startTime : ℤ
  config : Config
  initCount : ℕ
  deriving DecidableEq

/-- Component mount: the `useRef(Date.now())` initializer runs once, fixing
`startTime.current` to the mount-time clock; the effect then initializes the
pipeline for the first time. -/
def mount (now : ℤ) (cfg : Config) : AppState :=
  { startTime := now, config := cfg, initCount := 1 }

/-- A configuration change: the effect (dependency list
`[timeWindow, amplitude, showXSubScale, showYSubScale, xScaleDensity, yScaleDensity]`,
App.tsx line 297) tears down and re-initializes the pipeline at clock value
`now`.  Nothing in the effect body (App.tsx lines 149-296) assigns
`startTime.current`, so the clock reference is carried over unchanged. -/
def reconfigure (s : AppState) (now : ℤ) (newCfg : Config) : AppState :=
  { startTime := s.startTime, config := newCfg, initCount := s.initCount + 1 }

/-- Numeric value of a list of decimal digit characters. -/
def digitsVal (ds : List Char) : ℕ :=
  ds.foldl (fun acc c => 10 * acc + (c.toNat - Char.toNat '0')) 0

/-- JavaScript `parseInt` restricted to base 10 on plain inputs: an optional
sign followed by a longest prefix of decimal digits; `none` models `NaN`. -/
def parseIntJs (s : String) : Option ℤ :=
  match s.data with
  | [] => none
  | c :: cs =>
    let body := if c = '-' ∨ c = '+' then cs else c :: cs
    let ds := body.takeWhile Char.isDigit
    if ds.isEmpty then none
    else if c = '-' then some (-(digitsVal ds : ℤ)) else some ((digitsVal ds : ℤ))

/-- `Math.max(0, Math.min(6, num))` (App.tsx line 144). -/
def clamp06 (n : ℤ) : ℤ := max 0 (min 6 n)

/-- `handleDensityChange` (App.tsx lines 133-147): the empty string commits 0;
a `NaN` parse leaves the committed value unchanged; a parsed integer is
committed clamped into `[0, 6]`. -/
def handleDensityChange (value : String) (cur : ℤ) : ℤ :=
  if value = "" then 0
  else
    match parseIntJs value with
    | none => cur
    | some n => clamp06 n

/-- The `onBlur` handler of the density inputs (App.tsx lines 348-356):
`NaN` or a negative parse commits 0, a parse above 6 commits 6, anything else
leaves the committed value unchanged. -/
def handleDensityBlur (value : String) (cur : ℤ) : ℤ :=
  match parseIntJs value with
  | none => 0
  | some n => if n < 0 then 0 else if 6 < n then 6 else cur

/-- Typing `typed` into a density input and then blurring it.  The input is
controlled (`value={xScaleDensity}`), so the text seen by the blur handler is
the rendering of the value committed by the change handler. -/
def typeThenBlur (typed : String) (cur : ℤ) : ℤ :=
  let c1 := handleDensityChange typed cur
  handleDensityBlur (toString c1) c1

/-- A configuration with the default control values (App.tsx lines 30-35). -/
def cfgDefault : Config :=
  { timeWindow := 10000, amplitude := 10, showXSubScale := false,
    showYSubScale := false, xScaleDensity := 3, yScaleDensity := 3 }

/-- The default configuration with the time window switched to 5 seconds. -/
def cfgWin5 : Config :=
  { timeWindow := 5000, amplitude := 10, showXSubScale := false,
    showYSubScale := false, xScaleDensity := 3, yScaleDensity := 3 }

/-- The default configuration with the x sub-scale enabled at density 3. -/
def cfgSubX : Config :=
  { timeWindow := 10000, amplitude := 10, showXSubScale := true,
    showYSubScale := false, xScaleDensity := 3, yScaleDensity := 3 }

/-- The default configuration with the x sub-scale enabled at density 0. -/
def cfgSubX0 : Config :=
  { timeWindow := 10000, amplitude := 10, showXSubScale := true,
    showYSubScale := false, xScaleDensity := 0, yScaleDensity := 3 }

/-! ### Helper lemmas about the sampling loop -/

lemma lt_stepCount_iff (tw : ℤ) (k : ℕ) :
    k < stepCount tw ↔ -(tw : ℚ) / 1000 + (k : ℚ) * (1 / 50) ≤ 0 := by
  unfold stepCount
  by_cases h : tw < 0
  · simp only [if_pos h]
    constructor
    · intro hk
      exact absurd hk (Nat.not_lt_zero k)
    · intro hle
      have h1 : (tw : ℚ) < 0 := by exact_mod_cast h
      have h2 : (0 : ℚ) ≤ (k : ℚ) := Nat.cast_nonneg k
      nlinarith
  · simp only [if_neg h]
    have htw : (0 : ℚ) ≤ (tw : ℚ) := by exact_mod_cast le_of_not_lt h
    have hfl : 0 ≤ ⌊(tw : ℚ) / 20⌋ := Int.floor_nonneg.mpr (div_nonneg htw (by norm_num))
    constructor
    · intro hk
      have h1 : k ≤ (⌊(tw : ℚ) / 20⌋).toNat := Nat.lt_succ_iff.mp hk
      have h2 : (k : ℤ) ≤ ⌊(tw : ℚ) / 20⌋ := by
        have h3 := Int.ofNat_le.mpr h1
        rwa [Int.toNat_of_nonneg hfl] at h3
      have h4 : ((k : ℤ) : ℚ) ≤ (tw : ℚ) / 20 := Int.le_floor.mp h2
      have h5 : (k : ℚ) ≤ (tw : ℚ) / 20 := by exact_mod_cast h4
      linarith
    · intro hle
      have h3 : (k : ℚ) ≤ (tw : ℚ) / 20 := by linarith
      have h2 : (k : ℤ) ≤ ⌊(tw : ℚ) / 20⌋ := Int.le_floor.mpr (by exact_mod_cast h3)
      have h1 : k ≤ (⌊(tw : ℚ) / 20⌋).toNat := by omega
      exact Nat.lt_succ_iff.mpr h1

lemma mem_offsets_iff (tw : ℤ) (t : ℚ) :
    t ∈ offsets tw ↔ ∃ k : ℕ, t = -(tw : ℚ) / 1000 + (k : ℚ) * (1 / 50) ∧ t ≤ 0 := by
  unfold offsets
  rw [List.mem_map]
  constructor
  · rintro ⟨k, hk, rfl⟩
    rw [List.mem_range] at hk
    exact ⟨k, rfl, (lt_stepCount_iff tw k).mp hk⟩
  · rintro ⟨k, rfl, hle⟩
    exact ⟨k, List.mem_range.mpr ((lt_stepCount_iff tw k).mpr hle), rfl⟩

lemma mem_emitted_iff (now st tw : ℤ) (t : ℚ) :
    t ∈ emittedOffsets now st tw ↔ t ∈ offsets tw ∧ -(elapsedTime now st) ≤ t := by
  simp [emittedOffsets, List.mem_filter]

lemma offsets_sorted (tw : ℤ) : (offsets tw).Pairwise (· < ·) := by
  unfold offsets
  refine List.Pairwise.map _ ?_ (List.pairwise_lt_range _)
  intro a b hab
  have h1 : (a : ℚ) < (b : ℚ) := by exact_mod_cast hab
  linarith

lemma clamp_bounds (y : ℝ) : -10 ≤ max (-10) (min 10 y) ∧ max (-10) (min 10 y) ≤ 10 :=
  ⟨le_max_left _ _, max_le (by norm_num) (min_le_left _ _)⟩

lemma elapsed_cast (now st : ℤ) :
    ((elapsedTime now st : ℚ) : ℝ) = ((now : ℝ) - (st : ℝ)) / 1000 := by
  unfold elapsedTime
  push_cast
  ring

lemma stepCount_10000 : stepCount 10000 = 501 := by
  unfold stepCount
  rw [if_neg (by norm_num : ¬(10000 : ℤ) < 0)]
  rw [show (((10000 : ℤ) : ℚ) / 20) = ((500 : ℤ) : ℚ) by norm_num]
  rw [Int.floor_intCast]
  rfl

/-! ### Claim theorems -/

/-- C1: each call of the per-frame signal generation with inputs `now`,
`processStartTime`, `timeWindowMs`, `amplitude` produces an ordered sequence
of samples over the offsets stepping from `-timeWindowMs/1000` up to `0` in
fixed `0.02 s` steps; a sample is emitted exactly when `t ≥ -elapsedTime`
with `elapsedTime = (now - processStartTime)/1000`; an emitted sample has
timestamp `now + t*1000` and value
`clamp(amplitude * sin(2*pi*(t + elapsedTime)/2), -10, 10)`, so every
emitted value satisfies `-10 ≤ value ≤ 10`. -/
theorem updateFrame_samples_contract (now st tw : ℤ) (amp : ℝ) :
    (∀ t : ℚ, t ∈ offsets tw ↔
      ∃ k : ℕ, t = -(tw : ℚ) / 1000 + (k : ℚ) * (1 / 50) ∧ t ≤ 0)
    ∧ (∀ t : ℚ, t ∈ emittedOffsets now st tw ↔
        t ∈ offsets tw ∧ -(elapsedTime now st) ≤ t)
    ∧ List.Pairwise (fun a b : Sample => a.timestamp < b.timestamp)
        (updateFrameSamples now st tw amp)
    ∧ (∀ s : Sample, s ∈ updateFrameSamples now st tw amp →
        ∃ t ∈ emittedOffsets now st tw,
          s.timestamp = (now : ℚ) + t * 1000
          ∧ s.value = max (-10) (min 10
              (amp * Real.sin (2 * Real.pi * ((t : ℝ) + ((now : ℝ) - (st : ℝ)) / 1000) / 2)))
          ∧ -10 ≤ s.value ∧ s.value ≤ 10) := by
  refine ⟨fun t => mem_offsets_iff tw t, fun t => mem_emitted_iff now st tw t, ?_, ?_⟩
  · unfold updateFrameSamples
    refine List.Pairwise.map _ ?_ ((offsets_sorted tw).filter _)
    intro a b hab
    show (now : ℚ) + a * 1000 < (now : ℚ) + b * 1000
    linarith
  · intro s hs
    unfold updateFrameSamples at hs
    rw [List.mem_map] at hs
    obtain ⟨t, ht, rfl⟩ := hs
    refine ⟨t, ht, rfl, ?_, (clamp_bounds _).1, (clamp_bounds _).2⟩
    show sampleValue amp (t : ℝ) ((elapsedTime now st : ℚ) : ℝ) = _
    unfold sampleValue
    rw [elapsed_cast]

/-- Witness for C1: at `now = 20000`, `processStartTime = 0`,
`timeWindowMs = 100`, the offset `0` is emitted. -/
theorem updateFrame_samples_contract_witness :
    (0 : ℚ) ∈ emittedOffsets 20000 0 100 := by
  have h := updateFrame_samples_contract 20000 0 100 10
  refine (h.2.1 0).mpr ⟨(h.1 0).mpr ⟨5, by norm_num, le_refl 0⟩, ?_⟩
  norm_num [elapsedTime]

/-- C2: with `timeWindowMs = 10000`, `amplitude = 10` and
`elapsedTime = 20 s`, the generation loop emits a sample for every offset of
the full window `[-10, 0]` in `0.02 s` steps — exactly 501 samples, the last
one at offset `t = 0`. -/
theorem updateFrame_full_window_501 (now st : ℤ) (h : now - st = 20000) :
    emittedOffsets now st 10000 = offsets 10000
    ∧ (offsets 10000).length = 501
    ∧ (updateFrameSamples now st 10000 10).length = 501
    ∧ (0 : ℚ) ∈ offsets 10000
    ∧ (∀ t ∈ offsets 10000, -10 ≤ t ∧ t ≤ 0) := by
  have hlen : (offsets 10000).length = 501 := by
    unfold offsets
    rw [List.length_map, List.length_range, stepCount_10000]
  have hbounds : ∀ t ∈ offsets 10000, -10 ≤ t ∧ t ≤ 0 := by
    intro t ht
    obtain ⟨k, hk, hle⟩ := (mem_offsets_iff 10000 t).mp ht
    subst hk
    refine ⟨?_, hle⟩
    have h2 : (0 : ℚ) ≤ (k : ℚ) := Nat.cast_nonneg k
    nlinarith
  have hemit : emittedOffsets now st 10000 = offsets 10000 := by
    unfold emittedOffsets
    apply List.filter_eq_self.mpr
    intro t ht
    simp only [decide_eq_true_eq]
    have helapsed : elapsedTime now st = 20 := by
      unfold elapsedTime
      rw [h]
      norm_num
    rw [helapsed]
    have h3 := (hbounds t ht).1
    linarith
  refine ⟨hemit, hlen, ?_, ?_, hbounds⟩
  · unfold updateFrameSamples
    rw [List.length_map, hemit, hlen]
  · exact (mem_offsets_iff 10000 0).mpr ⟨500, by norm_num, le_refl 0⟩

/-- Witness for C2 at `now = 20000`, `processStartTime = 0`. -/
theorem updateFrame_full_window_501_witness :
    emittedOffsets 20000 0 10000 = offsets 10000
    ∧ (updateFrameSamples 20000 0 10000 10).length = 501 :=
  ⟨(updateFrame_full_window_501 20000 0 (by norm_num)).1,
   (updateFrame_full_window_501 20000 0 (by norm_num)).2.2.1⟩

/-- C3 counterexample: mount at clock 1000, then change the `timeWindow`
configuration field and let the pipeline re-initialize at clock 5000.  The
claim says `processStartTime` is re-fixed at that moment (so it would be
5000); the code keeps the mount-time value 1000, because `startTime` is a
`useRef` initializer that the effect never reassigns. -/
theorem startTime_not_refixed_cex :
    cfgDefault.timeWindow ≠ cfgWin5.timeWindow
    ∧ (reconfigure (mount 1000 cfgDefault) 5000 cfgWin5).startTime = 1000
    ∧ (reconfigure (mount 1000 cfgDefault) 5000 cfgWin5).startTime ≠ 5000 :=
  ⟨by decide, rfl, by decide⟩

/-- C3 (amended): `processStartTime` is fixed once at component mount and is
NOT re-fixed when the pipeline re-initializes on a configuration change; the
waveform phase is driven by elapsed time `now − processStartTime`. -/
theorem startTime_fixed_at_mount (s : AppState) (mountNow reinitNow : ℤ)
    (c c2 : Config) :
    (mount mountNow c).startTime = mountNow
    ∧ (reconfigure s reinitNow c2).startTime = s.startTime
    ∧ (∀ (n st tw : ℤ) (amp : ℝ),
        updateFrameSamples n st tw amp
          = (emittedOffsets n st tw).map (fun (t : ℚ) =>
              ⟨(n : ℚ) + t * 1000,
               sampleValue amp (t : ℝ) ((elapsedTime n st : ℚ) : ℝ)⟩)) :=
  ⟨rfl, rfl, fun _ _ _ _ => rfl⟩

/-- C4: every frame reads one clock value `now` and uses it for everything:
the generated samples, the chart's horizontal range update
`[now - timeWindowMs, now]`, and the overlay redraw, whose badge endpoints
coincide with the chart range — both represent the identical interval
`[now - timeWindowMs, now]` at the same instant. -/
theorem frame_single_now_interval (cfg : Config) (st now : ℤ) (W H : ℚ) :
    (updateFrame cfg st now W H).xMin = now - cfg.timeWindow
    ∧ (updateFrame cfg st now W H).xMax = now
    ∧ (updateFrame cfg st now W H).overlay = drawTimeAxis cfg now W H
    ∧ (updateFrame cfg st now W H).overlay.startBadgeTime
        = (updateFrame cfg st now W H).xMin
    ∧ (updateFrame cfg st now W H).overlay.endBadgeTime
        = (updateFrame cfg st now W H).xMax
    ∧ (updateFrame cfg st now W H).samples
        = updateFrameSamples now st cfg.timeWindow (cfg.amplitude : ℝ) :=
  ⟨rfl, rfl, rfl, rfl, rfl, rfl⟩

/-! ### Helper lemmas about the overlay -/

lemma mem_majorTicks_iff (now tw : ℤ) (W offset : ℚ) (tk : MajorTick) :
    tk ∈ majorTicks now tw W offset ↔
      ∃ i : ℕ, i < 7
        ∧ 0 ≤ (i : ℚ) * (W / 5) - offset
        ∧ (i : ℚ) * (W / 5) - offset ≤ W
        ∧ tk = ⟨(i : ℚ) * (W / 5) - offset, labelEpoch now tw i,
                fmtEpoch (jsTrunc (labelEpoch now tw i))⟩ := by
  unfold majorTicks
  rw [List.mem_filterMap]
  constructor
  · rintro ⟨i, hi, hsome⟩
    rw [List.mem_range] at hi
    dsimp only at hsome
    split at hsome
    · next hcond =>
        rw [Option.some.injEq] at hsome
        exact ⟨i, hi, hcond.1, hcond.2, hsome.symm⟩
    · exact Option.noConfusion hsome
  · rintro ⟨i, hi, h1, h2, rfl⟩
    refine ⟨i, List.mem_range.mpr hi, ?_⟩
    dsimp only
    rw [if_pos ⟨h1, h2⟩]

lemma drawTimeAxis_subTicks_on (cfg : Config) (now : ℤ) (W H : ℚ)
    (hx : cfg.showXSubScale = true) :
    (drawTimeAxis cfg now W H).subTicks
      = drawnSubTicks W cfg.xScaleDensity ((drawTimeAxis cfg now W H).offset) := by
  show (if cfg.showXSubScale
        then drawnSubTicks W cfg.xScaleDensity ((drawTimeAxis cfg now W H).offset)
        else []) = _
  rw [hx]
  exact if_pos rfl

lemma drawnSubTicks_pos (W : ℚ) (d : ℕ) (offset : ℚ) (hW : 0 < W) (hd : 0 < d) :
    drawnSubTicks W d offset
      = (List.range d).filterMap (fun (k : ℕ) =>
          let x := (k : ℚ) * (W / d) - offset
          if 0 ≤ x ∧ x ≤ W then some x else none) := by
  unfold drawnSubTicks subTickCandidates
  rw [if_neg (not_le.mpr hW), if_neg (Nat.pos_iff_ne_zero.mp hd),
    List.filterMap_map]
  rfl

lemma drawnSubTicks_length_offset_zero (W : ℚ) (d : ℕ) (hW : 0 < W)
    (hd : 0 < d) : (drawnSubTicks W d 0).length = d := by
  rw [drawnSubTicks_pos W d 0 hW hd]
  have hall : ∀ k ∈ List.range d,
      (fun (k : ℕ) =>
        let x := (k : ℚ) * (W / d) - 0
        if 0 ≤ x ∧ x ≤ W then some x else none) k
      = (some ∘ fun (k : ℕ) => (k : ℚ) * (W / d)) k := by
    intro k hk
    rw [List.mem_range] at hk
    have hd' : (0 : ℚ) < (d : ℚ) := by exact_mod_cast hd
    have hwd : 0 < W / (d : ℚ) := div_pos hW hd'
    have h1 : (0 : ℚ) ≤ (k : ℚ) * (W / d) := by positivity
    have h2 : (k : ℚ) * (W / d) ≤ W := by
      have hk1 : (k : ℚ) + 1 ≤ (d : ℚ) := by exact_mod_cast Nat.succ_le_of_lt hk
      have h3 : (k : ℚ) * (W / d) ≤ ((d : ℚ) - 1) * (W / d) := by nlinarith
      have h4 : ((d : ℚ) - 1) * (W / d) ≤ (d : ℚ) * (W / d) := by nlinarith
      have h5 : (d : ℚ) * (W / d) = W := by field_simp
      linarith
    dsimp only
    rw [sub_zero, if_pos ⟨h1, h2⟩]
    rfl
  rw [List.filterMap_congr hall, List.filterMap_eq_map, List.length_map,
    List.length_range]

/-- C5: every overlay redraw computes the scroll offset
`(now mod 2000)/2000 * (W/5)`; a major tick for index `i ∈ 0..6` is drawn at
`x = i*(W/5) - offset` exactly when `0 ≤ x ≤ W`, and the label under tick `i`
shows the time of `now - (timeWindowMs/1000 - i*(timeWindowMs/5000)) * 1000`;
for `timeWindowMs = 10000` the label epoch at `i = 0` is `now - 10000` and at
`i = 6` is `now + 2000`. -/
theorem drawTimeAxis_major_ticks (cfg : Config) (now : ℤ) (W H : ℚ) :
    (drawTimeAxis cfg now W H).offset = ((jsMod now 2000 : ℤ) : ℚ) / 2000 * (W / 5)
    ∧ (∀ tk ∈ (drawTimeAxis cfg now W H).ticks,
        ∃ i : ℕ, i < 7
          ∧ tk.x = (i : ℚ) * (W / 5) - ((jsMod now 2000 : ℤ) : ℚ) / 2000 * (W / 5)
          ∧ 0 ≤ tk.x ∧ tk.x ≤ W
          ∧ tk.epoch = labelEpoch now cfg.timeWindow i
          ∧ tk.label = fmtEpoch (jsTrunc (labelEpoch now cfg.timeWindow i)))
    ∧ (∀ i : ℕ, i < 7 →
        0 ≤ (i : ℚ) * (W / 5) - ((jsMod now 2000 : ℤ) : ℚ) / 2000 * (W / 5) →
        (i : ℚ) * (W / 5) - ((jsMod now 2000 : ℤ) : ℚ) / 2000 * (W / 5) ≤ W →
        (⟨(i : ℚ) * (W / 5) - ((jsMod now 2000 : ℤ) : ℚ) / 2000 * (W / 5),
          labelEpoch now cfg.timeWindow i,
          fmtEpoch (jsTrunc (labelEpoch now cfg.timeWindow i))⟩ : MajorTick)
          ∈ (drawTimeAxis cfg now W H).ticks)
    ∧ (cfg.timeWindow = 10000 →
        labelEpoch now 10000 0 = (now : ℚ) - 10000
        ∧ labelEpoch now 10000 6 = (now : ℚ) + 2000) := by
  refine ⟨rfl, ?_, ?_, ?_⟩
  · intro tk htk
    obtain ⟨i, hi, h1, h2, rfl⟩ :=
      (mem_majorTicks_iff now cfg.timeWindow W
        (((jsMod now 2000 : ℤ) : ℚ) / 2000 * (W / 5)) tk).mp htk
    exact ⟨i, hi, rfl, h1, h2, rfl, rfl⟩
  · intro i hi h1 h2
    exact (mem_majorTicks_iff now cfg.timeWindow W
      (((jsMod now 2000 : ℤ) : ℚ) / 2000 * (W / 5)) _).mpr ⟨i, hi, h1, h2, rfl⟩
  · intro htw
    constructor
    · unfold labelEpoch
      push_cast
      ring
    · unfold labelEpoch
      push_cast
      ring

/-- Witness for C5 at `now = 2000` (offset 0), `W = 100`: tick `i = 0` is
drawn, and the two label instantiations hold. -/
theorem drawTimeAxis_major_ticks_witness :
    (⟨(0 : ℚ) * (100 / 5) - ((jsMod 2000 2000 : ℤ) : ℚ) / 2000 * (100 / 5),
      labelEpoch 2000 cfgDefault.timeWindow 0,
      fmtEpoch (jsTrunc (labelEpoch 2000 cfgDefault.timeWindow 0))⟩ : MajorTick)
      ∈ (drawTimeAxis cfgDefault 2000 100 30).ticks
    ∧ labelEpoch 2000 10000 0 = (2000 : ℚ) - 10000
    ∧ labelEpoch 2000 10000 6 = (2000 : ℚ) + 2000 := by
  have h := drawTimeAxis_major_ticks cfgDefault 2000 100 30
  have hm : jsMod 2000 2000 = 0 := by decide
  exact ⟨h.2.2.1 0 (by norm_num) (by rw [hm]; norm_num) (by rw [hm]; norm_num),
    (h.2.2.2 rfl).1, (h.2.2.2 rfl).2⟩

/-- C6: the overlay's badges always show exactly the window endpoints:
left badge `"[" ++ fmt(now - timeWindowMs)`, right badge `fmt(now) ++ "]"`,
and the displayed times are independent of the scroll offset (they do not
change when the width — and with it the offset — changes). -/
theorem drawTimeAxis_badges (cfg : Config) (now : ℤ) (W H : ℚ) :
    (drawTimeAxis cfg now W H).startBadgeTime = now - cfg.timeWindow
    ∧ (drawTimeAxis cfg now W H).endBadgeTime = now
    ∧ (drawTimeAxis cfg now W H).startBadge = "[" ++ fmtEpoch (now - cfg.timeWindow)
    ∧ (drawTimeAxis cfg now W H).endBadge = fmtEpoch now ++ "]"
    ∧ (∀ W2 H2 : ℚ,
        (drawTimeAxis cfg now W2 H2).startBadge = (drawTimeAxis cfg now W H).startBadge
        ∧ (drawTimeAxis cfg now W2 H2).endBadge = (drawTimeAxis cfg now W H).endBadge) :=
  ⟨rfl, rfl, rfl, rfl, fun _ _ => ⟨rfl, rfl⟩⟩

/-- C7 counterexample: with the x sub-scale on at density 3, `now = 1000`
(so the scroll offset is 10 for `W = 100`), only 2 of the 3 candidate
sub-ticks fall within `[0, W]` — the overlay does not draw exactly
`xScaleDensity` sub-tick marks. -/
theorem subTicks_count_cex :
    cfgSubX.showXSubScale = true
    ∧ cfgSubX.xScaleDensity = 3
    ∧ (drawTimeAxis cfgSubX 1000 100 30).subTicks.length = 2
    ∧ (drawTimeAxis cfgSubX 1000 100 30).subTicks.length ≠ cfgSubX.xScaleDensity := by
  have hm : jsMod 1000 2000 = 1000 := by decide
  have hoff : (drawTimeAxis cfgSubX 1000 100 30).offset = 10 := by
    show ((jsMod 1000 2000 : ℤ) : ℚ) / 2000 * (100 / 5) = 10
    rw [hm]
    norm_num
  have hlen : (drawTimeAxis cfgSubX 1000 100 30).subTicks.length = 2 := by
    rw [drawTimeAxis_subTicks_on cfgSubX 1000 100 30 rfl, hoff,
      drawnSubTicks_pos 100 cfgSubX.xScaleDensity 10 (by norm_num) (by decide)]
    rw [show cfgSubX.xScaleDensity = 3 from rfl,
      show List.range 3 = [0, 1, 2] from rfl]
    simp only [List.filterMap_cons, List.filterMap_nil]
    norm_num
  exact ⟨rfl, rfl, hlen, by rw [hlen]; decide⟩

/-- C7 (amended): when `showXSubScale` is on (with positive width and
density), the overlay draws those of the `xScaleDensity` evenly spaced
candidate marks `k*(W/density) - offset`, `k < density`, that fall within
`[0, W]`; when the offset is 0 this is exactly `xScaleDensity` marks. -/
theorem subTicks_clipped_candidates (cfg : Config) (now : ℤ) (W H : ℚ)
    (hx : cfg.showXSubScale = true) (hW : 0 < W) (hd : 0 < cfg.xScaleDensity) :
    (drawTimeAxis cfg now W H).subTicks
      = (List.range cfg.xScaleDensity).filterMap (fun (k : ℕ) =>
          let x := (k : ℚ) * (W / cfg.xScaleDensity) - (drawTimeAxis cfg now W H).offset
          if 0 ≤ x ∧ x ≤ W then some x else none)
    ∧ ((drawTimeAxis cfg now W H).offset = 0 →
        (drawTimeAxis cfg now W H).subTicks.length = cfg.xScaleDensity) := by
  constructor
  · rw [drawTimeAxis_subTicks_on cfg now W H hx]
    exact drawnSubTicks_pos W cfg.xScaleDensity _ hW hd
  · intro hoff
    rw [drawTimeAxis_subTicks_on cfg now W H hx, hoff]
    exact drawnSubTicks_length_offset_zero W cfg.xScaleDensity hW hd

/-- Witness for C7 (amended) at `now = 2000` (offset 0), `W = 100`,
density 3: exactly 3 sub-ticks are drawn. -/
theorem subTicks_clipped_candidates_witness :
    (drawTimeAxis cfgSubX 2000 100 30).subTicks.length = cfgSubX.xScaleDensity :=
  (subTicks_clipped_candidates cfgSubX 2000 100 30 rfl (by norm_num)
    (by decide)).2 (by
      show ((jsMod 2000 2000 : ℤ) : ℚ) / 2000 * (100 / 5) = 0
      rw [show jsMod 2000 2000 = 0 from by decide]
      norm_num)

/-- C8: for the density text inputs, the empty string commits 0 immediately
on change; a non-numeric string is ignored on change; a parsed integer is
clamped into `[0, 6]` immediately on change; and typing then blurring turns
"9" into 6 and "-3" into 0, with no error surfaced (the handlers are total
functions into the committed value). -/
theorem density_input_handling (v : String) (cur : ℤ) :
    handleDensityChange "" cur = 0
    ∧ (v ≠ "" → parseIntJs v = none → handleDensityChange v cur = cur)
    ∧ (∀ n : ℤ, parseIntJs v = some n →
        handleDensityChange v cur = max 0 (min 6 n)
        ∧ 0 ≤ handleDensityChange v cur ∧ handleDensityChange v cur ≤ 6)
    ∧ typeThenBlur "9" cur = 6
    ∧ typeThenBlur "-3" cur = 0 := by
  refine ⟨rfl, ?_, ?_, rfl, rfl⟩
  · intro hne hnone
    unfold handleDensityChange
    rw [if_neg hne, hnone]
  · intro n hsome
    have hne : v ≠ "" := by
      intro h
      subst h
      exact Option.noConfusion hsome
    unfold handleDensityChange
    rw [if_neg hne, hsome]
    exact ⟨rfl, le_max_left _ _, max_le (by norm_num) (min_le_left _ _)⟩

/-- Witness for C8: a non-numeric entry is ignored, and the "9"-then-blur
scenario commits 6, at committed value 3. -/
theorem density_input_handling_witness :
    handleDensityChange "abc" 3 = 3 ∧ typeThenBlur "9" 3 = 6 := by
  have h := density_input_handling "abc" 3
  exact ⟨h.2.1 (by decide) rfl, h.2.2.2.1⟩

/-- C9: the sub-tick loop terminates for every width and every density,
including the committed density 0, where the step `width/0` is `+Infinity`:
the loop body then runs at most once, so at most one candidate exists and at
most one sub-tick is drawn. -/
theorem subTicks_density_zero (cfg : Config) (now : ℤ) (W H : ℚ)
    (hW : 0 ≤ W) (hd : cfg.xScaleDensity = 0) :
    (subTickCandidates W cfg.xScaleDensity).length ≤ 1
    ∧ (drawTimeAxis cfg now W H).subTicks.length ≤ 1 := by
  have hc : (subTickCandidates W cfg.xScaleDensity).length ≤ 1 := by
    rw [hd]
    unfold subTickCandidates
    by_cases h : W ≤ 0
    · rw [if_pos h]
      exact Nat.zero_le 1
    · rw [if_neg h, if_pos rfl]
      exact le_refl 1
  refine ⟨hc, ?_⟩
  by_cases hx : cfg.showXSubScale = true
  · rw [drawTimeAxis_subTicks_on cfg now W H hx]
    calc (drawnSubTicks W cfg.xScaleDensity _).length
        ≤ (subTickCandidates W cfg.xScaleDensity).length :=
          List.length_filterMap_le _ _
      _ ≤ 1 := hc
  · have hoff : (drawTimeAxis cfg now W H).subTicks = [] := by
      show (if cfg.showXSubScale then _ else _) = _
      rw [Bool.not_eq_true] at hx
      rw [hx]
      exact if_neg (by simp)
    rw [hoff]
    exact Nat.zero_le 1

/-- Witness for C9 at density 0, `W = 100`, x sub-scale enabled. -/
theorem subTicks_density_zero_witness :
    (subTickCandidates 100 cfgSubX0.xScaleDensity).length ≤ 1
    ∧ (drawTimeAxis cfgSubX0 0 100 30).subTicks.length ≤ 1 :=
  subTicks_density_zero cfgSubX0 0 100 30 (by norm_num) rfl

/-- C10 counterexample: the claim quantifies over every `amplitude ≤ 10`,
but at `amplitude = -20` (which satisfies `-20 ≤ 10`), `t = -1/2`,
`phase = 0` the unclamped value is `20`, outside `[-10, 10]`, so the clamp
is not the identity there. -/
theorem clamp_not_identity_cex :
    ((-20 : ℝ) ≤ 10)
    ∧ sampleValue (-20) (-(1 / 2)) 0 ≠ sampleValueUnclamped (-20) (-(1 / 2)) 0 := by
  refine ⟨by norm_num, ?_⟩
  have harg : 2 * Real.pi * ((-(1 / 2) : ℝ) + 0) / 2 = -(Real.pi / 2) := by ring
  have hsin : Real.sin (2 * Real.pi * ((-(1 / 2) : ℝ) + 0) / 2) = -1 := by
    rw [harg, Real.sin_neg, Real.sin_pi_div_two]
  unfold sampleValue sampleValueUnclamped
  rw [hsin]
  norm_num

/-- C10 (amended): for every amplitude with `|amplitude| ≤ 10` — which
includes all selectable values 2, 4, 6, 8, 10 — the clamp is the identity:
`amplitude * sin(2*pi*(t + phase)/2)` already lies in `[-10, 10]`, so the
clamped and unclamped signal generators agree. -/
theorem clamp_identity_abs_le (amp : ℝ) (h : |amp| ≤ 10) :
    (∀ t phase : ℝ, sampleValue amp t phase = sampleValueUnclamped amp t phase)
    ∧ (∀ now st tw : ℤ,
        updateFrameSamples now st tw amp = updateFrameSamplesUnclamped now st tw amp) := by
  have hpt : ∀ t phase : ℝ, sampleValue amp t phase = sampleValueUnclamped amp t phase := by
    intro t phase
    unfold sampleValue sampleValueUnclamped
    have hsin : |Real.sin (2 * Real.pi * (t + phase) / 2)| ≤ 1 :=
      Real.abs_sin_le_one _
    have hbound : |amp * Real.sin (2 * Real.pi * (t + phase) / 2)| ≤ 10 := by
      rw [abs_mul]
      calc |amp| * |Real.sin (2 * Real.pi * (t + phase) / 2)|
          ≤ 10 * 1 := mul_le_mul h hsin (abs_nonneg _) (by norm_num)
        _ = 10 := by norm_num
    obtain ⟨h1, h2⟩ := abs_le.mp hbound
    rw [min_eq_right h2, max_eq_right h1]
  refine ⟨hpt, ?_⟩
  intro now st tw
  unfold updateFrameSamples updateFrameSamplesUnclamped
  apply List.map_congr_left
  intro t ht
  exact congrArg (Sample.mk ((now : ℚ) + t * 1000)) (hpt (t : ℝ) _)

/-- Witness for C10 (amended) at amplitude 10. -/
theorem clamp_identity_abs_le_witness :
    sampleValue 10 0 0 = sampleValueUnclamped 10 0 0 :=
  (clamp_identity_abs_le 10 (by norm_num)).1 0 0

end OpenDaq
